import Mathlib

/-!
Verification of the tenant-scoped authentication/authorization core of a
multi-tenant note-taking service.  The definitions below are a shallow
embedding of the JavaScript source: Mongoose model virtuals and methods
become pure Lean functions, Express controller bodies become functions from
their inputs (with external collaborators such as the credential store,
bcrypt and the system clock passed in as explicit arguments), and the
side effects a controller performs on the store are returned as an explicit
effect list.  Timestamps are integers (epoch milliseconds), counters are
integers, and string-typed enumerations stay strings, as in the source.
-/

namespace NotesSaas

/-- Per-user permission flags, as in the user schema (`permissions` field). -/
structure Permissions where
  canCreateNotes : Bool
  canEditNotes : Bool
  canDeleteNotes : Bool
  canShareNotes : Bool
  canManageUsers : Bool
  canManageTenant : Bool
deriving Repr, DecidableEq

/-- The subscription subdocument of a tenant (only the field the core reads). -/
structure Subscription where
  status : String
deriving Repr, DecidableEq

/-- The usage counters subdocument of a tenant. -/
structure Usage where
  currentNoteCount : Int
  currentUserCount : Int
  storageUsed : Int
deriving Repr, DecidableEq

/-- A tenant document (the fields the authentication/quota core reads). -/
structure Tenant where
  slug : String
  name : String
  plan : String
  noteLimit : Int
  subscription : Subscription
  usage : Usage
  isActive : Bool
deriving Repr, DecidableEq

/-- Tenant virtual `hasUnlimitedNotes`: `this.noteLimit === -1`. -/
def hasUnlimitedNotes (t : Tenant) : Bool :=
  t.noteLimit == -1

/-- Tenant virtual `remainingNotes`:
`hasUnlimitedNotes ? -1 : Math.max(0, noteLimit - usage.currentNoteCount)`. -/
def remainingNotes (t : Tenant) : Int :=
  if hasUnlimitedNotes t then -1
  else max 0 (t.noteLimit - t.usage.currentNoteCount)

/-- Tenant virtual `canCreateNotes`:
`if (!this.isActive || this.subscription.status !== 'active') return false;
 return this.hasUnlimitedNotes || this.usage.currentNoteCount < this.noteLimit;`. -/
def canCreateNotes (t : Tenant) : Bool :=
  if !t.isActive || t.subscription.status != "active" then false
  else hasUnlimitedNotes t || t.usage.currentNoteCount < t.noteLimit

/-- An active free tenant with note limit `limit` and current count `count`
(subscription active), used for the boundary cases of the quota gate. -/
def freeTenantAt (count : Int) : Tenant :=
  { slug := "acme-co", name := "Acme Co", plan := "free", noteLimit := 3
    subscription := { status := "active" }
    usage := { currentNoteCount := count, currentUserCount := 1, storageUsed := 0 }
    isActive := true }

/-- An active pro tenant with unlimited notes and current count `count`. -/
def proTenantAt (count : Int) : Tenant :=
  { slug := "globex", name := "Globex", plan := "pro", noteLimit := -1
    subscription := { status := "active" }
    usage := { currentNoteCount := count, currentUserCount := 1, storageUsed := 0 }
    isActive := true }

/-- C2: the quota gate `canCreateNotes` is true iff the tenant is active, its
subscription status is `active`, and it either has the unlimited marker
`noteLimit = -1` or its current note count is strictly below the limit; at the
boundary, an active free tenant with limit 3 is denied at count 3, allowed at
count 2, and an active pro tenant with limit -1 is allowed at every count. -/
theorem canCreateNotes_spec :
    (∀ t : Tenant,
      canCreateNotes t =
        (t.isActive && (t.subscription.status == "active") &&
          (t.noteLimit == -1 || t.usage.currentNoteCount < t.noteLimit))) ∧
    canCreateNotes (freeTenantAt 3) = false ∧
    canCreateNotes (freeTenantAt 2) = true ∧
    (∀ count : Int, canCreateNotes (proTenantAt count) = true) := by
  refine ⟨?_, by decide, by decide, ?_⟩
  · intro t
    simp only [canCreateNotes, hasUnlimitedNotes]
    cases h : t.isActive <;> cases h2 : (t.subscription.status == "active") <;>
      simp_all [bne]
  · intro count
    simp [canCreateNotes, proTenantAt, hasUnlimitedNotes]

/-- The `security` subdocument of a user.  `lockUntil` and `lastLogin` are
nullable dates, embedded as optional epoch-millisecond values. -/
structure Security where
  loginAttempts : Int
  lockUntil : Option Int
  lastLogin : Option Int
deriving Repr, DecidableEq

/-- User virtual `isLocked`:
`!!(this.security.lockUntil && this.security.lockUntil > Date.now())`.
A non-null `lockUntil` is a Date object, hence truthy in the source. -/
def isLocked (now : Int) (s : Security) : Bool :=
  match s.lockUntil with
  | some l => l > now
  | none => false

/-- The guard of the restart branch of `incLoginAttempts`:
`this.security.lockUntil && this.security.lockUntil < Date.now()`. -/
def lockExpired (now : Int) (s : Security) : Bool :=
  match s.lockUntil with
  | some l => l < now
  | none => false

/-- Two hours in milliseconds: `2 * 60 * 60 * 1000` from `incLoginAttempts`. -/
def twoHoursMs : Int := 2 * 60 * 60 * 1000

/-- User method `incLoginAttempts`, as the state transition its single
`updateOne` performs on the `security` subdocument: an expired lock restarts
the counter at 1 and unsets the lock; otherwise the counter is incremented,
and when `this.security.loginAttempts + 1 >= 5 && !this.isLocked` the lock is
set to `Date.now() + 2 * 60 * 60 * 1000`. -/
def incLoginAttempts (now : Int) (s : Security) : Security :=
  if lockExpired now s then
    { s with loginAttempts := 1, lockUntil := none }
  else if s.loginAttempts + 1 ≥ 5 && !(isLocked now s) then
    { s with loginAttempts := s.loginAttempts + 1, lockUntil := some (now + twoHoursMs) }
  else
    { s with loginAttempts := s.loginAttempts + 1 }

/-- The failure-recording transition as the specification words it:
if an existing lock has already expired, reset the attempt counter to 1 and
clear the lock; else increment the attempt counter, and when the counter
thereby reaches the threshold of 5 while the user is not already locked, set
`lockUntil = now + 2h`. -/
def specRecordFailure (now : Int) (s : Security) : Security :=
  if lockExpired now s then
    { s with loginAttempts := 1, lockUntil := none }
  else
    let attempts := s.loginAttempts + 1
    if attempts ≥ 5 ∧ isLocked now s = false then
      { s with loginAttempts := attempts, lockUntil := some (now + twoHoursMs) }
    else
      { s with loginAttempts := attempts }

/-- C3: `incLoginAttempts` performs exactly the claimed transition: an expired
lock restarts the counter at 1 and clears the lock, otherwise the counter is
incremented by 1 (so in that branch it never decreases), and the lock is set
to `now + 2h` exactly when the incremented counter reaches the threshold of 5
while the user is not already locked.  The second conjunct pins the counter
itself, the third pins the lock field. -/
theorem incLoginAttempts_spec (now : Int) (s : Security) :
    incLoginAttempts now s = specRecordFailure now s ∧
    (incLoginAttempts now s).loginAttempts =
      (if lockExpired now s then 1 else s.loginAttempts + 1) ∧
    (incLoginAttempts now s).lockUntil =
      (if lockExpired now s then none
       else if s.loginAttempts + 1 ≥ 5 ∧ isLocked now s = false then
         some (now + twoHoursMs)
       else s.lockUntil) := by
  refine ⟨?_, ?_, ?_⟩ <;>
    · simp only [incLoginAttempts, specRecordFailure]
      split_ifs <;> simp_all

/-- Witness for C3 at a concrete state: four prior failures, no lock, a fifth
failure at time 0 locks the account until `2h`. -/
theorem incLoginAttempts_spec_witness :
    incLoginAttempts 0 { loginAttempts := 4, lockUntil := none, lastLogin := none } =
      specRecordFailure 0 { loginAttempts := 4, lockUntil := none, lastLogin := none } ∧
    (incLoginAttempts 0 { loginAttempts := 4, lockUntil := none, lastLogin := none }).lockUntil =
      some 7200000 := by
  refine ⟨(incLoginAttempts_spec 0 _).1, ?_⟩
  decide

/-- The decoded payload of a verified bearer token, as `verifyToken` returns
it to the middleware (the claim fields the resolver reads). -/
structure TokenClaims where
  userId : String
  tenantId : String
  tokenType : String
deriving Repr, DecidableEq

/-- The tenant subdocument populated onto `user.tenantId` by
`User.findById(...).populate('tenantId', 'slug name plan isActive noteLimit usage subscription')`
(the fields the resolver reads).  `none` models a missing/unresolvable tenant
reference, for which `!user.tenantId` is truthy in the source. -/
structure PopulatedTenant where
  _id : String
  slug : String
  isActive : Bool
deriving Repr, DecidableEq

/-- A user document as the resolver loads it (password deselected). -/
structure AuthUser where
  _id : String
  email : String
  isActive : Bool
  role : String
  permissions : Permissions
  tenantId : Option PopulatedTenant
deriving Repr, DecidableEq

/-- The principal the resolver attaches to the request as `req.auth`. -/
structure Principal where
  userId : String
  tenantId : String
  tenantSlug : String
  role : String
  permissions : Permissions
  isAdmin : Bool
deriving Repr, DecidableEq

/-- Outcome of the authentication middleware: either a principal attached to
the request, or an error response with an HTTP status and a stable code. -/
inductive AuthOutcome where
  | ok (principal : Principal)
  | err (status : Nat) (code : String)
deriving Repr, DecidableEq

/-- The principal built at the end of `authenticate`:
`{ userId, tenantId, tenantSlug, role, permissions, isAdmin: role === 'admin' }`. -/
def mkPrincipal (user : AuthUser) (tenant : PopulatedTenant) : Principal :=
  { userId := user._id, tenantId := tenant._id, tenantSlug := tenant.slug
    role := user.role, permissions := user.permissions
    isAdmin := user.role == "admin" }

/-- The `authenticate` middleware.  `token` is the extracted bearer credential
(header in one variant, header-or-cookie in the other), `verify` is
`verifyToken` with `none` standing for its thrown error, and `findUserById`
is the credential-store (or mock-table) lookup by the decoded user id, with
the owning tenant populated. -/
def authenticate (token : Option String) (verify : String → Option TokenClaims)
    (findUserById : String → Option AuthUser) : AuthOutcome :=
  match token with
  | none => .err 401 "NO_TOKEN"
  | some t =>
    match verify t with
    | none => .err 401 "INVALID_TOKEN"
    | some decoded =>
      if decoded.tokenType != "access" then .err 401 "INVALID_TOKEN_TYPE"
      else
        match findUserById decoded.userId with
        | none => .err 401 "USER_NOT_FOUND"
        | some user =>
          if !user.isActive then .err 401 "USER_INACTIVE"
          else
            match user.tenantId with
            | none => .err 401 "TENANT_INACTIVE"
            | some tenant =>
              if !tenant.isActive then .err 401 "TENANT_INACTIVE"
              else if tenant._id != decoded.tenantId then .err 401 "TENANT_MISMATCH"
              else .ok (mkPrincipal user tenant)

set_option maxRecDepth 100000
set_option maxHeartbeats 1600000

/-- C1: the resolver returns a principal exactly when every check passes, and
otherwise the 401 code of the first failing check, evaluated in the order
`NO_TOKEN`, `INVALID_TOKEN`, `INVALID_TOKEN_TYPE`, `USER_NOT_FOUND`,
`USER_INACTIVE`, `TENANT_INACTIVE` (tenant missing or inactive),
`TENANT_MISMATCH`.  Each conjunct characterises one outcome of
`authenticate` by the exact prefix of checks that leads to it. -/
theorem authenticate_spec (token : Option String) (verify : String → Option TokenClaims)
    (find : String → Option AuthUser) :
    (authenticate token verify find = .err 401 "NO_TOKEN" ↔ token = none) ∧
    (authenticate token verify find = .err 401 "INVALID_TOKEN" ↔
      ∃ t, token = some t ∧ verify t = none) ∧
    (authenticate token verify find = .err 401 "INVALID_TOKEN_TYPE" ↔
      ∃ t c, token = some t ∧ verify t = some c ∧ c.tokenType ≠ "access") ∧
    (authenticate token verify find = .err 401 "USER_NOT_FOUND" ↔
      ∃ t c, token = some t ∧ verify t = some c ∧ c.tokenType = "access" ∧
        find c.userId = none) ∧
    (authenticate token verify find = .err 401 "USER_INACTIVE" ↔
      ∃ t c u, token = some t ∧ verify t = some c ∧ c.tokenType = "access" ∧
        find c.userId = some u ∧ u.isActive = false) ∧
    (authenticate token verify find = .err 401 "TENANT_INACTIVE" ↔
      ∃ t c u, token = some t ∧ verify t = some c ∧ c.tokenType = "access" ∧
        find c.userId = some u ∧ u.isActive = true ∧
        (u.tenantId = none ∨ ∃ ten, u.tenantId = some ten ∧ ten.isActive = false)) ∧
    (authenticate token verify find = .err 401 "TENANT_MISMATCH" ↔
      ∃ t c u ten, token = some t ∧ verify t = some c ∧ c.tokenType = "access" ∧
        find c.userId = some u ∧ u.isActive = true ∧ u.tenantId = some ten ∧
        ten.isActive = true ∧ ten._id ≠ c.tenantId) ∧
    (∀ p, authenticate token verify find = .ok p ↔
      ∃ t c u ten, token = some t ∧ verify t = some c ∧ c.tokenType = "access" ∧
        find c.userId = some u ∧ u.isActive = true ∧ u.tenantId = some ten ∧
        ten.isActive = true ∧ ten._id = c.tenantId ∧ p = mkPrincipal u ten) := by
  rcases token with _ | t
  · simp [authenticate]
  rcases hv : verify t with _ | c
  · simp [authenticate, hv]
  by_cases hty : c.tokenType = "access"
  case neg =>
    simp_all [authenticate, hv, hty]
  rcases hf : find c.userId with _ | u
  · simp_all [authenticate, hv, hty, hf]
  by_cases hua : u.isActive
  case neg =>
    simp_all [authenticate, hv, hty, hf, hua]
  rcases hten : u.tenantId with _ | ten
  · simp_all [authenticate, hv, hty, hf, hua, hten]
  by_cases hta : ten.isActive
  case neg =>
    simp_all [authenticate, hv, hty, hf, hua, hten, hta]
  by_cases hmm : ten._id = c.tenantId
  case neg =>
    simp_all [authenticate, hv, hty, hf, hua, hten, hta, hmm]
  have hA : authenticate (some t) verify find = .ok (mkPrincipal u ten) := by
    simp [authenticate, hv, hty, hf, hua, hten, hta, hmm]
  refine ⟨?_, ?_, ?_, ?_, ?_, ?_, ?_, ?_⟩
  · rw [hA]; simp
  · rw [hA]; simp [hv]
  · rw [hA]; simp [hv, hty]
  · rw [hA]; simp [hv, hty, hf]
  · rw [hA]; simp [hv, hty, hf, hua]
  · rw [hA]; simp [hv, hty, hf, hua, hten, hta]
  · rw [hA]; simp [hv, hty, hf, hua, hten, hta, hmm]
  · intro p
    rw [hA]
    constructor
    · intro h
      refine ⟨t, c, u, ten, rfl, hv, hty, hf, hua, hten, hta, hmm, ?_⟩
      injection h with h'
      exact h'.symm
    · rintro ⟨t', c', u', ten', ht', hv', hty', hf', hua', hten', hta', hmm', hp⟩
      obtain rfl : t' = t := by injection ht' with h'; exact h'.symm
      rw [hv] at hv'
      obtain rfl : c' = c := by injection hv' with h'; exact h'.symm
      rw [hf] at hf'
      obtain rfl : u' = u := by injection hf' with h'; exact h'.symm
      rw [hten] at hten'
      obtain rfl : ten' = ten := by injection hten' with h'; exact h'.symm
      rw [hp]

/-- The tenant view populated onto `user.tenantId` by the login controller's
`populate('tenantId', 'slug name plan isActive noteLimit usage subscription')`
(the fields the login control flow reads). -/
structure LoginTenantView where
  _id : String
  slug : String
  isActive : Bool
deriving Repr, DecidableEq

/-- A user document as the login controller loads it by
`User.findOne({ email: email.toLowerCase(), isActive: true })`; the
`isActive: true` filter is part of the lookup, so an inactive account is
indistinguishable from a missing one at this point.  `password` is the
stored bcrypt hash. -/
structure LoginUser where
  _id : String
  email : String
  password : String
  role : String
  permissions : Permissions
  security : Security
  tenantId : Option LoginTenantView
deriving Repr, DecidableEq

/-- User method `comparePassword`:
`if (!candidatePassword || !this.password) return false;
 return bcrypt.compare(candidatePassword, this.password);`
with `bc` the bcrypt comparison treated as an external oracle, and the empty
string playing the falsy role of a missing value. -/
def comparePassword (bc : String → String → Bool) (candidate hash : String) : Bool :=
  if candidate = "" || hash = "" then false else bc candidate hash

/-- Outcome of the login controller: a sanitized success view (the fields
driving the response; the echoed profile/tenant details and the minted token
pair are determined by them), or a failure with status, message and code. -/
inductive LoginResult where
  | success (userId : String) (tenantId : String) (tenantSlug : String) (role : String)
  | failure (status : Nat) (error : String) (code : String)
deriving Repr, DecidableEq

/-- Security-state writes the login controller can perform on the user:
`incLoginAttempts` on a wrong password, `resetLoginAttempts` (clear
`loginAttempts`/`lockUntil`, set `lastLogin`) on success. -/
inductive UserEffect where
  | recordFailure
  | recordSuccess
deriving Repr, DecidableEq

/-- The login controller (`authController.js`, first implementation), as a
function of the clock, the bcrypt oracle, the result of the email lookup and
the candidate password; returns the response together with the list of
security-state writes it issued, in order. -/
def login (now : Int) (bc : String → String → Bool)
    (lookup : Option LoginUser) (password : String) : LoginResult × List UserEffect :=
  match lookup with
  | none => (.failure 401 "Invalid email or password" "INVALID_CREDENTIALS", [])
  | some user =>
    if isLocked now user.security then
      (.failure 423 "Account is temporarily locked due to too many failed login attempts"
        "ACCOUNT_LOCKED", [])
    else if !(comparePassword bc password user.password) then
      (.failure 401 "Invalid email or password" "INVALID_CREDENTIALS", [.recordFailure])
    else
      match user.tenantId with
      | none => (.failure 403 "Organization account is inactive" "TENANT_INACTIVE", [])
      | some ten =>
        if !ten.isActive then
          (.failure 403 "Organization account is inactive" "TENANT_INACTIVE", [])
        else
          (.success user._id ten._id ten.slug user.role, [.recordSuccess])

/-- C5: a non-existent (or inactive, hence filtered-out) email and a wrong
password on an existing non-locked account produce the same response: HTTP
401 with code `INVALID_CREDENTIALS` and the identical body, so the response
never reveals whether the email is registered. -/
theorem login_no_account_enumeration (now : Int) (bc : String → String → Bool)
    (user : LoginUser) (pw : String)
    (hlock : isLocked now user.security = false)
    (hpw : comparePassword bc pw user.password = false) :
    (login now bc none pw).1 =
      .failure 401 "Invalid email or password" "INVALID_CREDENTIALS" ∧
    (login now bc (some user) pw).1 =
      .failure 401 "Invalid email or password" "INVALID_CREDENTIALS" ∧
    (login now bc none pw).1 = (login now bc (some user) pw).1 := by
  simp [login, hlock, hpw]

/-- A concrete non-locked account whose stored hash never matches, used to
instantiate the login theorems. -/
def sampleUser : LoginUser :=
  { _id := "u1", email := "a@x.test", password := "hash-of-abcdef1"
    role := "admin"
    permissions := { canCreateNotes := true, canEditNotes := true, canDeleteNotes := true
                     canShareNotes := true, canManageUsers := true, canManageTenant := true }
    security := { loginAttempts := 0, lockUntil := none, lastLogin := none }
    tenantId := some { _id := "t1", slug := "acme-co", isActive := true } }

/-- Witness for C5: at time 0, with a bcrypt oracle that rejects the guess,
the missing-account response equals the wrong-password response. -/
theorem login_no_account_enumeration_witness :
    (login 0 (fun _ _ => false) none "guess").1 =
      (login 0 (fun _ _ => false) (some sampleUser) "guess").1 :=
  (login_no_account_enumeration 0 (fun _ _ => false) sampleUser "guess"
    (by decide) (by decide)).2.2

/-- `email.toLowerCase()` restricted to ASCII, which covers every email this
core compares (the mock addresses and normalized stored emails). -/
def jsToLower (s : String) : String :=
  String.mk (s.data.map Char.toLower)

/-- The tenant object hardcoded inline on each mock user (the fields the
login/auth flow reads). -/
structure MockTenantView where
  _id : String
  slug : String
  name : String
  plan : String
  noteLimit : Int
  isActive : Bool
deriving Repr, DecidableEq

/-- A hardcoded mock user from the second `authController.js` implementation. -/
structure MockUser where
  _id : String
  email : String
  password : String
  role : String
  isActive : Bool
  permissions : Permissions
  tenantId : MockTenantView
deriving Repr, DecidableEq

/-- The bcrypt hash literal repeated on every mock user, annotated
`// password` in the source (it is the hash of the string `password`). -/
def mockPasswordHash : String :=
  "$2a$10$92IXUNpkjO0rOQ5byMi.Ye4oKoEa3Ro9llC/.og/at2.uheWG/igi"

/-- The mock Acme tenant (`free`, limit 3, active). -/
def mockTenantAcme : MockTenantView :=
  { _id := "mock-tenant-acme", slug := "acme", name := "Acme Corporation"
    plan := "free", noteLimit := 3, isActive := true }

/-- The mock Globex tenant (`pro`, unlimited, active). -/
def mockTenantGlobex : MockTenantView :=
  { _id := "mock-tenant-globex", slug := "globex", name := "Globex Corporation"
    plan := "pro", noteLimit := -1, isActive := true }

/-- All-true permission flags, as on the mock admins and the founding admin. -/
def adminPermissions : Permissions :=
  { canCreateNotes := true, canEditNotes := true, canDeleteNotes := true
    canShareNotes := true, canManageUsers := true, canManageTenant := true }

/-- Member permission flags, as on the mock members. -/
def memberPermissions : Permissions :=
  { canCreateNotes := true, canEditNotes := true, canDeleteNotes := true
    canShareNotes := true, canManageUsers := false, canManageTenant := false }

/-- The `mockUsers` table of the second `authController.js` implementation,
keyed by lowercased email. -/
def mockUsers (email : String) : Option MockUser :=
  if email = "admin@acme.test" then
    some { _id := "mock-admin-acme", email := "admin@acme.test"
           password := mockPasswordHash, role := "admin", isActive := true
           permissions := adminPermissions, tenantId := mockTenantAcme }
  else if email = "user@acme.test" then
    some { _id := "mock-user-acme", email := "user@acme.test"
           password := mockPasswordHash, role := "member", isActive := true
           permissions := memberPermissions, tenantId := mockTenantAcme }
  else if email = "admin@globex.test" then
    some { _id := "mock-admin-globex", email := "admin@globex.test"
           password := mockPasswordHash, role := "admin", isActive := true
           permissions := adminPermissions, tenantId := mockTenantGlobex }
  else if email = "user@globex.test" then
    some { _id := "mock-user-globex", email := "user@globex.test"
           password := mockPasswordHash, role := "member", isActive := true
           permissions := memberPermissions, tenantId := mockTenantGlobex }
  else none

/-- A user document as the second login implementation loads it from the
store; in this variant `tenantId` is a string, used as a slug for the manual
`Tenant.findOne({ slug: user.tenantId })` fetch. -/
structure DbUser where
  _id : String
  email : String
  password : String
  role : String
  permissions : Permissions
  security : Security
  tenantId : String
deriving Repr, DecidableEq

/-- Credential-store interactions of the second login implementation, in the
order they are issued. -/
inductive StoreEffect where
  | findUserByEmail (email : String)
  | findTenantBySlug (slug : String)
  | recordFailure
  | recordSuccess
deriving Repr, DecidableEq

/-- The login controller of the second `authController.js` implementation:
mock table first (always available, no store access); otherwise, when the
store is connected, user lookup, manual tenant fetch, lock check, password
check with failure recording, then `resetLoginAttempts()` BEFORE the
tenant-active check; when the store is disconnected, a generic
`INVALID_CREDENTIALS`.  A failed tenant fetch leaves `user.tenantId` as the
raw string, whose `.isActive` is undefined (falsy), so it lands in the
`TENANT_INACTIVE` branch. -/
def loginV2 (now : Int) (bc : String → String → Bool) (dbConnected : Bool)
    (findUser : String → Option DbUser) (findTenant : String → Option Tenant)
    (email password : String) : LoginResult × List StoreEffect :=
  let lowerEmail := jsToLower email
  match mockUsers lowerEmail with
  | some mu =>
    if !(bc password mu.password) then
      (.failure 401 "Invalid email or password" "INVALID_CREDENTIALS", [])
    else if !mu.tenantId.isActive then
      (.failure 403 "Organization account is inactive" "TENANT_INACTIVE", [])
    else
      (.success mu._id mu.tenantId._id mu.tenantId.slug mu.role, [])
  | none =>
    if !dbConnected then
      (.failure 401 "Invalid email or password" "INVALID_CREDENTIALS", [])
    else
      match findUser lowerEmail with
      | none =>
        (.failure 401 "Invalid email or password" "INVALID_CREDENTIALS",
          [.findUserByEmail lowerEmail])
      | some user =>
        let effs := [StoreEffect.findUserByEmail lowerEmail,
                     StoreEffect.findTenantBySlug user.tenantId]
        if isLocked now user.security then
          (.failure 423 "Account is temporarily locked due to too many failed login attempts"
            "ACCOUNT_LOCKED", effs)
        else if !(comparePassword bc password user.password) then
          (.failure 401 "Invalid email or password" "INVALID_CREDENTIALS",
            effs ++ [.recordFailure])
        else
          let effs2 := effs ++ [StoreEffect.recordSuccess]
          match findTenant user.tenantId with
          | none =>
            (.failure 403 "Organization account is inactive" "TENANT_INACTIVE", effs2)
          | some ten =>
            if !ten.isActive then
              (.failure 403 "Organization account is inactive" "TENANT_INACTIVE", effs2)
            else
              (.success user._id user.tenantId ten.slug user.role, effs2)

/-- The four hardcoded mock addresses. -/
def mockEmails : List String :=
  ["admin@acme.test", "user@acme.test", "admin@globex.test", "user@globex.test"]

/-- C6: for a login whose lowercased email is one of the four mock addresses,
the outcome is decided solely by the bcrypt comparison of the submitted
password against the hardcoded hash: the store is never consulted (no store
effect at all, in particular no failure is recorded), the result is the same
for every store state and connectivity, a wrong password yields 401
`INVALID_CREDENTIALS`, a right one yields the mock success, and the result is
never a 423 `ACCOUNT_LOCKED` response. -/
theorem loginV2_mock_bypasses_store (now : Int) (bc : String → String → Bool)
    (db1 db2 : Bool) (fu1 fu2 : String → Option DbUser)
    (ft1 ft2 : String → Option Tenant) (email pw : String)
    (h : jsToLower email ∈ mockEmails) :
    loginV2 now bc db1 fu1 ft1 email pw = loginV2 now bc db2 fu2 ft2 email pw ∧
    (loginV2 now bc db1 fu1 ft1 email pw).2 = [] ∧
    (bc pw mockPasswordHash = false →
      (loginV2 now bc db1 fu1 ft1 email pw).1 =
        .failure 401 "Invalid email or password" "INVALID_CREDENTIALS") ∧
    (bc pw mockPasswordHash = true →
      ∃ uid tid slug role,
        (loginV2 now bc db1 fu1 ft1 email pw).1 = .success uid tid slug role) ∧
    (∀ e, (loginV2 now bc db1 fu1 ft1 email pw).1 ≠ .failure 423 e "ACCOUNT_LOCKED") := by
  simp only [mockEmails, List.mem_cons, List.not_mem_nil, or_false] at h
  rcases h with h | h | h | h <;>
    · cases hbc : bc pw mockPasswordHash <;>
        simp [loginV2, mockUsers, mockTenantAcme, mockTenantGlobex, h, hbc]

/-- Witness for C6: a login as `Admin@Acme.test` with a rejecting bcrypt
oracle returns `INVALID_CREDENTIALS` with no store effect. -/
theorem loginV2_mock_bypasses_store_witness :
    loginV2 0 (fun _ _ => false) true (fun _ => none) (fun _ => none)
        "Admin@Acme.test" "wrong" =
      (.failure 401 "Invalid email or password" "INVALID_CREDENTIALS", []) := by
  have h := loginV2_mock_bypasses_store 0 (fun _ _ => false) true true
    (fun _ => none) (fun _ => none) (fun _ => none) (fun _ => none)
    "Admin@Acme.test" "wrong" (by decide)
  have h2 := h.2.2.1 rfl
  have h3 := h.2.1
  rcases heq : loginV2 0 (fun _ _ => false) true (fun _ => none) (fun _ => none)
      "Admin@Acme.test" "wrong" with ⟨r, effs⟩
  rw [heq] at h2 h3
  simp at h2 h3
  rw [h2, h3]

/-- The payload of a signed token.  `generateToken` embeds all six claim
fields; `generateRefreshToken` embeds only `userId`, `tenantId` and a `jti`,
so the absent fields are optional here. -/
structure JwtPayload where
  userId : String
  email : Option String
  tenantId : String
  tenantSlug : Option String
  role : Option String
  permissions : Option Permissions
  tokenType : String
  jti : Option String
deriving Repr, DecidableEq

/-- A signed token, with the signature modeled symbolically: the signing
secret, issuer, audience and expiry are carried alongside the payload, and
verification checks them instead of recomputing an HMAC (the cryptography
of `jsonwebtoken` is an external collaborator). -/
structure SignedToken where
  payload : JwtPayload
  secret : String
  issuer : String
  audience : String
  exp : Int
deriving Repr, DecidableEq

/-- `JWT_SECRET`, at its development default
(`process.env.JWT_SECRET || 'fallback-secret-key-for-development-only'`). -/
def JWT_SECRET : String := "fallback-secret-key-for-development-only"

/-- `JWT_EXPIRES_IN` default `'7d'`, in seconds. -/
def accessTokenLifetime : Int := 7 * 24 * 60 * 60

/-- `JWT_REFRESH_EXPIRES_IN` default `'30d'`, in seconds. -/
def refreshTokenLifetime : Int := 30 * 24 * 60 * 60

/-- The claim set `C` the controllers pass to the token generators:
`{ userId, email, tenantId, tenantSlug, role, permissions }`. -/
structure TokenInput where
  userId : String
  email : String
  tenantId : String
  tenantSlug : String
  role : String
  permissions : Permissions
deriving Repr, DecidableEq

/-- `generateToken`: signs all six claim fields plus `tokenType: 'access'`
with `JWT_SECRET`, issuer `notes-saas`, audience `notes-saas-users`, expiring
`7d` after issuance. -/
def generateToken (c : TokenInput) (now : Int) : SignedToken :=
  { payload := { userId := c.userId, email := some c.email, tenantId := c.tenantId
                 tenantSlug := some c.tenantSlug, role := some c.role
                 permissions := some c.permissions, tokenType := "access", jti := none }
    secret := JWT_SECRET, issuer := "notes-saas", audience := "notes-saas-users"
    exp := now + accessTokenLifetime }

/-- `generateRefreshToken`: signs only `userId`, `tenantId`,
`tokenType: 'refresh'` and a fresh `jti` (here a parameter, since
`crypto.randomUUID()` is external), audience `notes-saas-refresh`,
expiring `30d` after issuance. -/
def generateRefreshToken (c : TokenInput) (jti : String) (now : Int) : SignedToken :=
  { payload := { userId := c.userId, email := none, tenantId := c.tenantId
                 tenantSlug := none, role := none
                 permissions := none, tokenType := "refresh", jti := some jti }
    secret := JWT_SECRET, issuer := "notes-saas", audience := "notes-saas-refresh"
    exp := now + refreshTokenLifetime }

/-- `verifyToken`: succeeds iff the token was signed with `JWT_SECRET`, has
issuer `notes-saas`, has one of the two accepted audiences, and has not
expired (`jsonwebtoken` rejects once the clock reaches `exp`); it returns the
embedded payload and performs no `tokenType` check itself. -/
def verifyToken (tok : SignedToken) (now : Int) : Option JwtPayload :=
  if tok.secret = JWT_SECRET ∧ tok.issuer = "notes-saas" ∧
      (tok.audience = "notes-saas-users" ∨ tok.audience = "notes-saas-refresh") ∧
      now < tok.exp then
    some tok.payload
  else
    none

/-- A concrete claim set used by the token and refresh theorems. -/
def sampleClaims : TokenInput :=
  { userId := "u1", email := "a@x.test", tenantId := "t1", tenantSlug := "acme-co"
    role := "admin", permissions := adminPermissions }

/-- Counterexample to C7 as stated: a refresh token issued for the claim set
`sampleClaims` verifies before expiry, but the verified payload has dropped
the `email`, `tenantSlug`, `role` and `permissions` claims (and gained a
`jti`), so `verify` does not yield back exactly the claims the token was
issued with. -/
theorem tokenRoundTrip_cex :
    verifyToken (generateRefreshToken sampleClaims "jti-1" 0) 1 =
      some { userId := "u1", email := none, tenantId := "t1", tenantSlug := none
             role := none, permissions := none, tokenType := "refresh"
             jti := some "jti-1" } ∧
    sampleClaims.email = "a@x.test" ∧ sampleClaims.role = "admin" := by
  refine ⟨?_, rfl, rfl⟩
  decide

/-- C7 (amended): an access token issued by `generateToken` with claims `C`
yields back exactly `C` plus the `tokenType: 'access'` marker from
`verifyToken` at any time strictly before expiry, and verification fails from
expiry on; a refresh token issued by `generateRefreshToken` with claims `C`
yields back only the `userId` and `tenantId` claims of `C`, plus
`tokenType: 'refresh'` and its `jti`, until its own expiry. -/
theorem tokenRoundTrip_amended (c : TokenInput) (jti : String) (now t : Int) :
    verifyToken (generateToken c now) t =
      (if t < now + accessTokenLifetime then
        some { userId := c.userId, email := some c.email, tenantId := c.tenantId
               tenantSlug := some c.tenantSlug, role := some c.role
               permissions := some c.permissions, tokenType := "access", jti := none }
       else none) ∧
    verifyToken (generateRefreshToken c jti now) t =
      (if t < now + refreshTokenLifetime then
        some { userId := c.userId, email := none, tenantId := c.tenantId
               tenantSlug := none, role := none, permissions := none
               tokenType := "refresh", jti := some jti }
       else none) := by
  constructor <;>
    · simp only [verifyToken, generateToken, generateRefreshToken]
      split_ifs <;> simp_all

/-- Outcome of a refresh request: a freshly minted access token, or an error
response with status and code. -/
inductive RefreshOutcome where
  | ok (accessToken : SignedToken)
  | err (status : Nat) (code : String)
deriving Repr, DecidableEq

/-- The first `refreshToken` implementation: requires the body token, then
calls `verifyToken(token)` inside an inner try/catch whose catch returns 401
`INVALID_REFRESH_TOKEN`.  This controller document imports only
`generateToken` and `generateRefreshToken` from the jwt helpers — NOT
`verifyToken` — so as written that call throws a ReferenceError and every
request with a token lands in the catch; the verification step is therefore
the oracle `verifyRefresh`, which at runtime is constantly `none`.  The
source text goes on to explicitly require `tokenType === 'refresh'` (else
401 `INVALID_TOKEN_TYPE`) — dead code under the unresolved binding,
reachable only if the import were repaired — then reloads user and populated
tenant, collapses
`!user || !user.isActive || !user.tenantId || !user.tenantId.isActive` into
401 `INVALID_USER_TENANT`, and mints a new access token from the reloaded
user. -/
def refreshTokenV1 (token : Option SignedToken)
    (verifyRefresh : SignedToken → Option JwtPayload)
    (findUser : String → Option AuthUser) (now : Int) : RefreshOutcome :=
  match token with
  | none => .err 401 "REFRESH_TOKEN_REQUIRED"
  | some tok =>
    match verifyRefresh tok with
    | none => .err 401 "INVALID_REFRESH_TOKEN"
    | some decoded =>
      if decoded.tokenType != "refresh" then .err 401 "INVALID_TOKEN_TYPE"
      else
        match findUser decoded.userId with
        | none => .err 401 "INVALID_USER_TENANT"
        | some user =>
          if !user.isActive then .err 401 "INVALID_USER_TENANT"
          else
            match user.tenantId with
            | none => .err 401 "INVALID_USER_TENANT"
            | some ten =>
              if !ten.isActive then .err 401 "INVALID_USER_TENANT"
              else
                .ok (generateToken
                  { userId := user._id, email := user.email, tenantId := ten._id
                    tenantSlug := ten.slug, role := user.role
                    permissions := user.permissions } now)

/-- The second `refreshToken` implementation: requires the body token, then
calls `jwt.verify(refreshToken, process.env.JWT_REFRESH_SECRET)` — modeled by
the oracle `verifyRefresh`, since this variant bypasses the `verifyToken`
helper (and the `jwt` binding is not even imported in this file, so as
written every call throws and lands in the catch-all 401
`INVALID_REFRESH_TOKEN`).  It performs NO `tokenType` check on the decoded
payload, checks only `!user || !user.isActive` (401
`INVALID_REFRESH_TOKEN`), and mints a new access token; a missing populated
tenant makes the payload construction throw, landing in the same catch-all. -/
def refreshTokenV2 (token : Option SignedToken)
    (verifyRefresh : SignedToken → Option JwtPayload)
    (findUser : String → Option AuthUser) (now : Int) : RefreshOutcome :=
  match token with
  | none => .err 401 "REFRESH_TOKEN_REQUIRED"
  | some tok =>
    match verifyRefresh tok with
    | none => .err 401 "INVALID_REFRESH_TOKEN"
    | some decoded =>
      match findUser decoded.userId with
      | none => .err 401 "INVALID_REFRESH_TOKEN"
      | some user =>
        if !user.isActive then .err 401 "INVALID_REFRESH_TOKEN"
        else
          match user.tenantId with
          | none => .err 401 "INVALID_REFRESH_TOKEN"
          | some ten =>
            .ok (generateToken
              { userId := user._id, email := user.email, tenantId := ten._id
                tenantSlug := ten.slug, role := user.role
                permissions := user.permissions } now)

/-- An active stored user (with active tenant) matching `sampleClaims`. -/
def sampleAuthUser : AuthUser :=
  { _id := "u1", email := "a@x.test", isActive := true, role := "admin"
    permissions := adminPermissions
    tenantId := some { _id := "t1", slug := "acme-co", isActive := true } }

/-- C4: only the resolver rejects the wrong token type with an explicit
check (conjunct 1: a refresh-type payload at the resolver yields 401
`INVALID_TOKEN_TYPE`).  Neither refresh endpoint does as written.  First
implementation: its `verifyToken` binding is unresolved, so the runtime
verifier is constantly `none` and EVERY supplied token — access or refresh —
returns 401 `INVALID_REFRESH_TOKEN`, never `INVALID_TOKEN_TYPE` (conjunct 2,
universally over tokens, lookups and times); its textual
`tokenType !== 'refresh'` check would reject an access-type payload with
`INVALID_TOKEN_TYPE` only under a repaired import (conjunct 3).  Second
implementation: it has no `tokenType` check at all — a verifier that accepts
the access token (e.g. a repaired `jwt` import with `JWT_REFRESH_SECRET`
equal to the signing secret) makes it mint and return a fresh access token
for an access-type payload (conjunct 4), and when its verifier rejects (as
the undefined `jwt` binding always does), the code is 401
`INVALID_REFRESH_TOKEN` (conjunct 5). -/
theorem refresh_type_confusion :
    authenticate (some "tok")
        (fun _ => some { userId := "u1", tenantId := "t1", tokenType := "refresh" })
        (fun _ => some sampleAuthUser) = .err 401 "INVALID_TOKEN_TYPE" ∧
    (∀ (tok : SignedToken) (fu : String → Option AuthUser) (now : Int),
      refreshTokenV1 (some tok) (fun _ => none) fu now =
        .err 401 "INVALID_REFRESH_TOKEN") ∧
    refreshTokenV1 (some (generateToken sampleClaims 0)) (fun tok => some tok.payload)
        (fun _ => some sampleAuthUser) 0 = .err 401 "INVALID_TOKEN_TYPE" ∧
    refreshTokenV2 (some (generateToken sampleClaims 0)) (fun tok => some tok.payload)
        (fun _ => some sampleAuthUser) 0 = .ok (generateToken sampleClaims 0) ∧
    refreshTokenV2 (some (generateToken sampleClaims 0)) (fun _ => none)
        (fun _ => some sampleAuthUser) 0 = .err 401 "INVALID_REFRESH_TOKEN" := by
  refine ⟨by decide, ?_, by decide, by decide, by decide⟩
  intro tok fu now
  rfl

/-- The `noteLimit` adjustment of the tenant `pre('save')` middleware:
`if (this.isModified('plan')) {
   if (this.plan === 'free' && (this.noteLimit === -1 || this.noteLimit > 10)) this.noteLimit = 3;
   else if (this.plan === 'pro' && this.noteLimit < 10) this.noteLimit = -1; }`. -/
def tenantPreSaveNoteLimit (planModified : Bool) (plan : String) (noteLimit : Int) : Int :=
  if planModified then
    if plan = "free" ∧ (noteLimit = -1 ∨ noteLimit > 10) then 3
    else if plan = "pro" ∧ noteLimit < 10 then -1
    else noteLimit
  else noteLimit

/-- Saving a tenant: the pre-save hook applied to its current fields. -/
def saveTenant (planModified : Bool) (t : Tenant) : Tenant :=
  { t with noteLimit := tenantPreSaveNoteLimit planModified t.plan t.noteLimit }

/-- The `upgradeTenant` controller on its resolved tenant: 400 `ALREADY_PRO`
(here `none`) when already pro, otherwise sets `plan = 'pro'`,
`noteLimit = -1`, `subscription.status = 'active'` (the refreshed start/end
dates are elided) and saves, which runs the pre-save hook with the plan
modified. -/
def upgradeTenant (t : Tenant) : Option Tenant :=
  if t.plan = "pro" then none
  else some (saveTenant true
    { t with plan := "pro", noteLimit := -1
             subscription := { t.subscription with status := "active" } })

/-- Counterexample to C8 as stated: a save that switches the plan to pro
while `noteLimit` is 10 leaves `noteLimit` at 10 — the hook forces -1 only
when the held value is below 10, not regardless of it. -/
theorem tenantPreSave_pro_keeps_finite_limit_cex :
    tenantPreSaveNoteLimit true "pro" 10 = 10 ∧ (10 : Int) ≠ -1 := by
  constructor <;> decide

/-- C8 (amended): on a save whose plan changed, switching to free resets
`noteLimit` to 3 exactly when it was -1 or above 10 (hence, whenever the held
value was -1 or positive, the result is a valid free value in 1..10), and
switching to pro forces `noteLimit` to -1 exactly when the held value was
below 10, preserving finite limits of 10 or more; the `upgradeTenant`
endpoint itself sets `noteLimit` to -1 before saving, so every successful
upgrade through it ends with plan pro and unlimited notes. -/
theorem tenantPreSave_plan_consistency (n : Int) (t : Tenant)
    (hn : n = -1 ∨ 1 ≤ n) :
    tenantPreSaveNoteLimit true "free" n = (if n = -1 ∨ n > 10 then 3 else n) ∧
    (1 ≤ tenantPreSaveNoteLimit true "free" n ∧
      tenantPreSaveNoteLimit true "free" n ≤ 10) ∧
    tenantPreSaveNoteLimit true "pro" n = (if n < 10 then -1 else n) ∧
    (upgradeTenant t).all (fun t2 => t2.noteLimit == -1 && t2.plan == "pro") = true := by
  refine ⟨?_, ?_, ?_, ?_⟩
  · simp only [tenantPreSaveNoteLimit, if_true]
    split_ifs with h1 h2 <;> simp_all
  · simp only [tenantPreSaveNoteLimit, if_true]
    split_ifs with h1 h2 <;> simp_all
  · simp only [tenantPreSaveNoteLimit, if_true]
    split_ifs with h1 h2 <;> simp_all
  · simp only [upgradeTenant]
    split_ifs with h1 <;> simp [saveTenant, tenantPreSaveNoteLimit]

/-- Witness for C8 at `n = 12` and a free tenant: switching to free clamps
12 to 3, switching to pro forces -1, and the upgrade endpoint ends pro and
unlimited. -/
theorem tenantPreSave_plan_consistency_witness :
    tenantPreSaveNoteLimit true "free" 12 = 3 ∧
    tenantPreSaveNoteLimit true "pro" 12 = 12 ∧
    (upgradeTenant (freeTenantAt 3)).all
      (fun t2 => t2.noteLimit == -1 && t2.plan == "pro") = true := by
  have h := tenantPreSave_plan_consistency 12 (freeTenantAt 3) (Or.inr (by decide))
  exact ⟨by rw [h.1]; decide, by rw [h.2.2.1]; decide, h.2.2.2⟩

/-- ASCII whitespace matched by the `\s` class of the slug regexes (the
Unicode whitespace `\s` also matches does not occur in this core's inputs). -/
def jsWhitespaceChar (c : Char) : Bool :=
  c = ' ' || c = '\t' || c = '\n' || c = '\r' || c = '\x0b' || c = '\x0c'

/-- A character kept by `.replace(/[^a-z0-9\s-]/g, '')` (after lowercasing). -/
def slugAllowedChar (c : Char) : Bool :=
  c.isLower || c.isDigit || jsWhitespaceChar c || c = '-'

/-- Replace every maximal run of characters satisfying `p` by the single
character `rep`, as `.replace(/X+/g, rep)` does. -/
def collapseRuns (p : Char → Bool) (rep : Char) (l : List Char) : List Char :=
  (l.foldl
    (fun (acc : List Char × Bool) c =>
      if p c then (if acc.2 then acc else (acc.1 ++ [rep], true))
      else (acc.1 ++ [c], false))
    ([], false)).1

/-- `String.prototype.trim()`: strip whitespace from both ends. -/
def jsTrim (l : List Char) : List Char :=
  ((l.dropWhile jsWhitespaceChar).reverse.dropWhile jsWhitespaceChar).reverse

/-- The tenant-slug derivation of `register`: lowercase, strip characters
outside the class `[a-z0-9\s-]`, replace each whitespace run `\s+` by a
single hyphen, collapse each hyphen run `(hyphen)+` to a single hyphen, then
`trim()`. -/
def slugify (tenantName : String) : String :=
  let lowered := tenantName.data.map Char.toLower
  let stripped := lowered.filter slugAllowedChar
  let hyphenated := collapseRuns jsWhitespaceChar '-' stripped
  let collapsed := collapseRuns (fun c => c = '-') '-' hyphenated
  String.mk (jsTrim collapsed)

/-- The request body of `register`. -/
structure RegisterInput where
  email : String
  password : String
  tenantName : String
  firstName : String
  lastName : String
deriving Repr, DecidableEq

/-- What a successful registration creates: the tenant document and the
founding user's normalized email, role and permission flags (the password is
stored only as a hash and never echoed). -/
structure CreatedAccount where
  tenant : Tenant
  userEmail : String
  userRole : String
  userPermissions : Permissions
deriving Repr, DecidableEq

/-- Outcome of `register`: 409 `USER_EXISTS`, 409 `TENANT_EXISTS`, or the
created account. -/
inductive RegisterResult where
  | userExists
  | tenantExists
  | created (acct : CreatedAccount)
deriving Repr, DecidableEq

/-- The `register` controller: global (tenant-unscoped) existence check on
the lowercased email, slug derivation and tenant-slug existence check, then
creation of the tenant (`plan: 'free'`, `noteLimit: 3`, `isActive: true`,
schema defaults `subscription.status: 'active'` and zero usage, after which
`incrementUsage('users', 1)` sets `currentUserCount` to 1) and of the
founding admin user (role `admin`, all six permission flags true). -/
def register (emailExists : String → Bool) (slugExists : String → Bool)
    (inp : RegisterInput) : RegisterResult :=
  if emailExists (jsToLower inp.email) then .userExists
  else
    let slug := slugify inp.tenantName
    if slugExists slug then .tenantExists
    else
      .created
        { tenant := { slug := slug, name := inp.tenantName, plan := "free", noteLimit := 3
                      subscription := { status := "active" }
                      usage := { currentNoteCount := 0, currentUserCount := 1, storageUsed := 0 }
                      isActive := true }
          userEmail := jsToLower inp.email
          userRole := "admin"
          userPermissions := adminPermissions }

/-- The Scenario A request body. -/
def scenarioARegisterInput : RegisterInput :=
  { email := "a@x.test", password := "Abcdef1", tenantName := "Acme Co"
    firstName := "", lastName := "" }

/-- C9: when the lowercased email and the derived slug are both new,
registration creates a tenant whose slug is exactly the
lowercase/strip/whitespace-to-hyphen/collapse/trim derivation of the supplied
organization name, with plan free, limit 3, and a founding admin user with
all six permission flags; concretely, `"Acme Co"` derives `acme-co` and
Scenario A creates that tenant. -/
theorem register_fresh_creates_admin (emailExists slugExists : String → Bool)
    (inp : RegisterInput)
    (hmail : emailExists (jsToLower inp.email) = false)
    (hslug : slugExists (slugify inp.tenantName) = false) :
    register emailExists slugExists inp =
      .created
        { tenant := { slug := slugify inp.tenantName, name := inp.tenantName
                      plan := "free", noteLimit := 3
                      subscription := { status := "active" }
                      usage := { currentNoteCount := 0, currentUserCount := 1, storageUsed := 0 }
                      isActive := true }
          userEmail := jsToLower inp.email
          userRole := "admin"
          userPermissions := adminPermissions } ∧
    slugify "Acme Co" = "acme-co" ∧
    register (fun _ => false) (fun _ => false) scenarioARegisterInput =
      .created
        { tenant := { slug := "acme-co", name := "Acme Co", plan := "free", noteLimit := 3
                      subscription := { status := "active" }
                      usage := { currentNoteCount := 0, currentUserCount := 1, storageUsed := 0 }
                      isActive := true }
          userEmail := "a@x.test"
          userRole := "admin"
          userPermissions := adminPermissions } := by
  refine ⟨?_, by decide, by decide⟩
  simp [register, hmail, hslug]

/-- Witness for C9: Scenario A against an empty store. -/
theorem register_fresh_creates_admin_witness :
    register (fun _ => false) (fun _ => false) scenarioARegisterInput =
      .created
        { tenant := { slug := slugify "Acme Co", name := "Acme Co", plan := "free"
                      noteLimit := 3
                      subscription := { status := "active" }
                      usage := { currentNoteCount := 0, currentUserCount := 1, storageUsed := 0 }
                      isActive := true }
          userEmail := "a@x.test"
          userRole := "admin"
          userPermissions := adminPermissions } :=
  (register_fresh_creates_admin (fun _ => false) (fun _ => false)
    scenarioARegisterInput rfl rfl).1

end NotesSaas
